import Mathlib

set_option maxHeartbeats 1000000
set_option maxRecDepth 4000

/-!
Verification development for the solid-tradingview-widgets library.

Each TradingView widget component follows the same shape: merge user props
with documented defaults (solid-js `mergeProps`), resolve dimensions from a
`Size` (`number | "full"`) and an `autosize` flag, map the merged
configuration to a flat JSON wire payload, inject a vendor script whose
text content is the serialized payload, and tear the widget root down
before every re-run of the reactive effect.

The definitions below are shallow embeddings of the corresponding
TypeScript declarations (file and line references in the doc comments).
JavaScript strings are Lean `String`s, JS numbers that the library passes
through are `Int`s, and a JS object literal is a list of
`(key, Option JValue)` pairs: a `none` value models an `undefined`
property, which `JSON.stringify` omits from the serialized object.
-/

/-- JSON-serializable values appearing in widget wire payloads
(strings, numbers, booleans and arrays, per the vendor contract). -/
inductive JValue where
  | str (s : String)
  | num (n : Int)
  | bool (b : Bool)
  | arr (xs : List JValue)

/-- The `Size` type from src/types.ts: `number | "full"`. -/
inductive Size where
  | pix (n : Int)
  | full
deriving DecidableEq

instance : BEq Size := instBEqOfDecidableEq

/-- A JS object literal with possibly-`undefined` properties, as handed to
`JSON.stringify`: `JSON.stringify` drops every property whose value is
`undefined`, so serialization keeps exactly the `some` entries. -/
def jsonObject (entries : List (String × Option JValue)) : List (String × JValue) :=
  entries.filterMap (fun kv => kv.2.map (fun v => (kv.1, v)))

/-- The key set of a serialized JSON object, in serialization order. -/
def objKeys (o : List (String × JValue)) : List String :=
  o.map Prod.fst

/-- Property access on a serialized JSON object. -/
def lookupKey (o : List (String × JValue)) (k : String) : Option JValue :=
  List.lookup k o

theorem jsonObject_cons_some (k : String) (v : JValue) (rest : List (String × Option JValue)) :
    jsonObject ((k, some v) :: rest) = (k, v) :: jsonObject rest := rfl

theorem jsonObject_cons_none (k : String) (rest : List (String × Option JValue)) :
    jsonObject ((k, none) :: rest) = jsonObject rest := rfl

/-- A key appears in the serialized object exactly when the literal has an
entry with that key whose value is defined (not `undefined`). -/
theorem mem_objKeys_jsonObject (k : String) (entries : List (String × Option JValue)) :
    k ∈ objKeys (jsonObject entries) ↔ ∃ v : JValue, (k, some v) ∈ entries := by
  constructor
  · intro h
    obtain ⟨⟨k1, v⟩, hx, hk⟩ := List.mem_map.mp h
    obtain ⟨⟨k2, o⟩, hmem, hf⟩ := List.mem_filterMap.mp hx
    cases o with
    | none => simp at hf
    | some w =>
      simp only [Option.map_some'] at hf
      injection hf with hf
      rw [← hf] at hk
      refine ⟨w, ?_⟩
      have hk2 : k2 = k := hk
      rw [hk2] at hmem
      exact hmem
  · rintro ⟨v, hv⟩
    exact List.mem_map.mpr ⟨(k, v), List.mem_filterMap.mpr ⟨(k, some v), hv, rfl⟩, rfl⟩

/-- Resolved dimension per the spec's ResolvedDimensions data model:
either fill the available space or use an explicit pixel count. -/
inductive ResolvedDim where
  | fill
  | pixels (n : Int)
deriving DecidableEq

/-- Dimension resolution as performed identically in every widget
(e.g. src/charts/MiniChart.tsx lines 222-228):
`const fullWidth = _props.autosize || _props.width === "full"` selects the
"100%" rendering, otherwise the explicit pixel value is used unchanged. -/
def resolveDim (size : Size) (autosize : Bool) : ResolvedDim :=
  if autosize || size == Size.full then ResolvedDim.fill
  else
    match size with
    | Size.pix n => ResolvedDim.pixels n
    | Size.full => ResolvedDim.fill

/-- The wire-payload rendering of a dimension, as in
`width: fullWidth ? "100%" : _props.width` (MiniChart.tsx line 238):
the string "100%" when filling, the raw number otherwise. -/
def dimPayloadValue (autosize : Bool) (size : Size) : JValue :=
  if autosize || size == Size.full then JValue.str "100%"
  else
    match size with
    | Size.pix n => JValue.num n
    | Size.full => JValue.str "100%"

/-- C3: autosize forces "fill" for a dimension regardless of the size value
(including explicit pixel numbers), so any two sizes resolve identically
under `autosize = true`. -/
theorem resolveDim_autosize_forces_fill (s s' : Size) :
    resolveDim s true = ResolvedDim.fill ∧ resolveDim s true = resolveDim s' true := by
  simp [resolveDim]

/-- JavaScript `String.prototype.split` with a single-character separator,
on the character-list view of a string. `"".split(":")` is `[""]`, and a
string with no separator splits into the one-element list of itself. -/
def splitChars (c : Char) : List Char → List (List Char)
  | [] => [[]]
  | a :: rest =>
    let r := splitChars c rest
    if a = c then [] :: r
    else
      match r with
      | h :: t => (a :: h) :: t
      | [] => [[a]]

theorem splitChars_ne_nil (c : Char) (l : List Char) : splitChars c l ≠ [] := by
  cases l with
  | nil => simp [splitChars]
  | cons a rest =>
    simp only [splitChars]
    split
    · simp
    · split
      · simp
      · simp

theorem splitChars_of_not_mem (c : Char) (l : List Char) (h : c ∉ l) :
    splitChars c l = [l] := by
  induction l with
  | nil => rfl
  | cons a rest ih =>
    have hac : ¬ a = c := fun e => h (e ▸ List.mem_cons_self a rest)
    have hcr : c ∉ rest := fun hm => h (List.mem_cons_of_mem _ hm)
    simp only [splitChars]
    rw [if_neg hac, ih hcr]

theorem one_lt_length_splitChars_of_mem (c : Char) (l : List Char) (h : c ∈ l) :
    1 < (splitChars c l).length := by
  induction l with
  | nil => simp at h
  | cons a rest ih =>
    simp only [splitChars]
    by_cases hac : a = c
    · rw [if_pos hac, List.length_cons]
      have := List.length_pos.mpr (splitChars_ne_nil c rest)
      omega
    · rw [if_neg hac]
      have hcr : c ∈ rest := by
        rcases List.mem_cons.mp h with h1 | h2
        · exact absurd h1.symm hac
        · exact h2
      have h1 := ih hcr
      rcases hr : splitChars c rest with _ | ⟨hh, tt⟩
      · exact absurd hr (splitChars_ne_nil c rest)
      · rw [hr] at h1
        show 1 < ((a :: hh) :: tt).length
        simp only [List.length_cons] at h1 ⊢
        omega

/-- The split has more than one piece exactly when the separator occurs. -/
theorem one_lt_length_splitChars (c : Char) (l : List Char) :
    1 < (splitChars c l).length ↔ c ∈ l := by
  constructor
  · intro hlen
    by_contra hmem
    rw [splitChars_of_not_mem c l hmem] at hlen
    simp at hlen
  · exact one_lt_length_splitChars_of_mem c l

/-- JS `symbol.split(":")` on Lean strings. -/
def jsSplit (c : Char) (s : String) : List String :=
  (splitChars c s.data).map String.mk

/-- Per-symbol display name exactly as computed in
src/charts/MiniChart.tsx lines 750-751:
`const parts = symbol.split(":"); parts.length > 1 ? parts[1] : symbol`. -/
def displayName (s : String) : String :=
  let parts := jsSplit ':' s
  if h : 1 < parts.length then parts.get ⟨1, h⟩ else s

/-- The per-symbol wire entry from src/charts/MiniChart.tsx line 752:
`[displayName, symbol + "|1D"]`. -/
def symbolEntry (s : String) : JValue :=
  JValue.arr [JValue.str (displayName s), JValue.str (s ++ "|1D")]

/-- The symbols field of the SymbolOverview payload
(src/charts/MiniChart.tsx lines 748-753): the symbols array mapped
entrywise through `symbolEntry`. -/
def symbolsWire (symbols : List String) : List JValue :=
  symbols.map symbolEntry

/-- Display name as the claim words it: the second ":"-separated part when
the symbol contains a colon, the symbol itself when it contains none. -/
def specDisplayName (s : String) : String :=
  if ':' ∈ s.data then (jsSplit ':' s).getD 1 s else s

theorem displayName_eq_specDisplayName (s : String) : displayName s = specDisplayName s := by
  unfold displayName specDisplayName
  have hiff : 1 < (jsSplit ':' s).length ↔ ':' ∈ s.data := by
    unfold jsSplit
    rw [List.length_map]
    exact one_lt_length_splitChars ':' s.data
  by_cases h : 1 < (jsSplit ':' s).length
  · rw [dif_pos h, if_pos (hiff.mp h)]
    rw [List.getD_eq_getElem _ _ h]
    simp
  · rw [dif_neg h, if_neg (fun hc => h (hiff.mpr hc))]

/-- An observable DOM/lifecycle event of one widget controller instance:
creation (appendChild of a fresh widget root into the outer container) or
removal (widgetRoot.remove()) of the widget root of a given generation. -/
inductive LifeEvent where
  | created (g : Nat)
  | removed (g : Nat)
deriving DecidableEq

/-- The state of one widget lifecycle controller instance: which widget
roots are currently attached to the outer container (in append order),
how many were ever created, the cleanup registered by the latest effect
run, and the full trace of DOM events so far. -/
structure ControllerState where
  attached : List Nat
  createdCount : Nat
  pendingCleanup : Option Nat
  trace : List LifeEvent
deriving DecidableEq

/-- Controller state before the first reactive run: nothing attached,
nothing created, no cleanup registered. -/
def initController : ControllerState :=
  { attached := [], createdCount := 0, pendingCleanup := none, trace := [] }

/-- One run of the reactive effect body, translated from
src/charts/MiniChart.tsx lines 217-263 (the EconomicCalendar effect at
lines 376-419 of its file is identical): create a fresh widget root,
append it to the outer container, and register a cleanup that removes
exactly that root. -/
def effectBody (s : ControllerState) : ControllerState :=
  let g := s.createdCount
  { attached := s.attached ++ [g]
    createdCount := g + 1
    pendingCleanup := some g
    trace := s.trace ++ [LifeEvent.created g] }

/-- Running the registered cleanup (`onCleanup(() => widgetRoot.remove())`):
the widget root of the registered generation is detached from the
container, to completion, before anything else happens. -/
def runCleanup (s : ControllerState) : ControllerState :=
  match s.pendingCleanup with
  | none => s
  | some g =>
    { attached := s.attached.filter (fun x => x ≠ g)
      createdCount := s.createdCount
      pendingCleanup := none
      trace := s.trace ++ [LifeEvent.removed g] }

/-- Modelled from the spec: the reactive runtime's scheduling contract for
`createEffect`/`onCleanup` (the solid-js runtime is not part of this
repository's sources). Per spec §4.1 step 5 and §5, the cleanup action
registered by run N executes synchronously and to completion immediately
before run N+1 of the effect, with no interleaving. `runLifecycle n` is
the controller state after the initial activation followed by `n`
sequential configuration changes. -/
def runLifecycle : Nat → ControllerState
  | 0 => effectBody initController
  | n + 1 => effectBody (runCleanup (runLifecycle n))

/-- The canonical event trace after n configuration changes: each
generation's root is removed before the next generation's root is
created. -/
def canonicalTrace : Nat → List LifeEvent
  | 0 => [LifeEvent.created 0]
  | n + 1 => canonicalTrace n ++ [LifeEvent.removed n, LifeEvent.created (n + 1)]

/-- Count of widget-root creations in a trace. -/
def countCreated (t : List LifeEvent) : Nat :=
  (t.filter (fun e => match e with | LifeEvent.created _ => true | _ => false)).length

theorem countCreated_canonicalTrace (n : Nat) : countCreated (canonicalTrace n) = n + 1 := by
  induction n with
  | zero => rfl
  | succ n ih =>
    simp only [canonicalTrace, countCreated, List.filter_append] at ih ⊢
    simp [ih, List.length_append]

theorem runLifecycle_state (n : Nat) :
    runLifecycle n =
      { attached := [n], createdCount := n + 1,
        pendingCleanup := some n, trace := canonicalTrace n } := by
  induction n with
  | zero => rfl
  | succ n ih =>
    show effectBody (runCleanup (runLifecycle n)) = _
    rw [ih]
    simp [effectBody, runCleanup, canonicalTrace]

/-- Modelled from the spec: the result of one script-load attempt as the
Script Injector reports it (spec §6: the load-script utility returns a
promise that resolves on the script's load event and rejects on error or
network failure). The error payload is modelled as a string message. -/
inductive LoadResult where
  | ok
  | failed (e : String)
deriving DecidableEq

/-- Modelled from the spec: the `tryCatch` helper wrapping the injector
call (an external utility): it returns an `[error, value]` pair and never
throws, so a rejection becomes a defined first component. -/
def tryCatchLoad (r : LoadResult) : Option String × Option Unit :=
  match r with
  | LoadResult.ok => (none, some ())
  | LoadResult.failed e => (some e, none)

/-- What one mount cycle observably does after the widget root has been
created, depending on the asynchronous load outcome. -/
structure MountOutcome where
  rootsCreated : Nat
  rootsRemoved : Nat
  onErrorCalls : List String
  throws : Bool
deriving DecidableEq

/-- One full mount cycle of a widget controller, translated from
src/charts/MiniChart.tsx lines 217-263: the effect body synchronously
creates and appends exactly one widget root, then `downloadScript` awaits
the injector through `tryCatch` and, per line 255
(`if (error) _props.onError?.(error)`), invokes the caller's onError
callback once with the error when one is supplied and the load failed;
no other statement runs, so nothing is retried, removed or thrown. -/
def mountCycle (onErrorProvided : Bool) (r : LoadResult) : MountOutcome :=
  let loadOutcome := tryCatchLoad r
  let calls :=
    match loadOutcome.1 with
    | some e => if onErrorProvided then [e] else []
    | none => []
  { rootsCreated := 1
    rootsRemoved := 0
    onErrorCalls := calls
    throws := false }

/-- Props of the MiniChart component (src/charts/MiniChart.tsx lines
30-138). Optional props are `Option`s; `none` models an omitted prop.
The `ColorTheme`, `Locale` and `MiniChartDateRange` prop types are unions
of string literals passed through unmapped, so they are embedded as
strings. -/
structure MiniChartProps where
  symbol : String
  width : Option Size := none
  height : Option Size := none
  locale : Option String := none
  dateRange : Option String := none
  colorTheme : Option String := none
  trendLineColor : Option String := none
  underLineColor : Option String := none
  underLineBottomColor : Option String := none
  autosize : Option Bool := none
  isTransparent : Option Bool := none
  chartOnly : Option Bool := none
  noTimeScale : Option Bool := none
deriving DecidableEq

/-- The merged MiniChart configuration: every defaulted field resolved. -/
structure MiniChartMerged where
  symbol : String
  width : Size
  height : Size
  locale : String
  dateRange : String
  colorTheme : String
  trendLineColor : Option String
  underLineColor : Option String
  underLineBottomColor : Option String
  autosize : Bool
  isTransparent : Bool
  chartOnly : Bool
  noTimeScale : Bool
deriving DecidableEq

/-- solid-js `mergeProps` for MiniChart (src/charts/MiniChart.tsx lines
201-215): a supplied (defined) prop overrides the documented default. -/
def mergeMiniChartProps (p : MiniChartProps) : MiniChartMerged :=
  { symbol := p.symbol
    width := p.width.getD Size.full
    height := p.height.getD Size.full
    locale := p.locale.getD "en"
    dateRange := p.dateRange.getD "1M"
    colorTheme := p.colorTheme.getD "light"
    trendLineColor := p.trendLineColor
    underLineColor := p.underLineColor
    underLineBottomColor := p.underLineBottomColor
    autosize := p.autosize.getD true
    isTransparent := p.isTransparent.getD false
    chartOnly := p.chartOnly.getD false
    noTimeScale := p.noTimeScale.getD false }

/-- The MiniChart wire payload (src/charts/MiniChart.tsx lines 235-249),
in the literal's key order; `undefined` color props are dropped by
`JSON.stringify`. -/
def miniChartPayload (q : MiniChartMerged) : List (String × JValue) :=
  jsonObject [
    ("symbol", some (JValue.str q.symbol)),
    ("autosize", some (JValue.bool q.autosize)),
    ("width", some (dimPayloadValue q.autosize q.width)),
    ("height", some (dimPayloadValue q.autosize q.height)),
    ("locale", some (JValue.str q.locale)),
    ("colorTheme", some (JValue.str q.colorTheme)),
    ("dateRange", some (JValue.str q.dateRange)),
    ("trendLineColor", q.trendLineColor.map JValue.str),
    ("underLineColor", q.underLineColor.map JValue.str),
    ("underLineBottomColor", q.underLineBottomColor.map JValue.str),
    ("isTransparent", some (JValue.bool q.isTransparent)),
    ("chartOnly", some (JValue.bool q.chartOnly)),
    ("noTimeScale", some (JValue.bool q.noTimeScale))]

/-- A MiniChart props object in which every optional field that has a
documented default and was omitted is instead explicitly set to that
default (supplied fields are kept unchanged); the color props have no
documented default and stay as given. -/
def miniChartExplicitDefaults (p : MiniChartProps) : MiniChartProps :=
  { p with
    width := some (p.width.getD Size.full)
    height := some (p.height.getD Size.full)
    locale := some (p.locale.getD "en")
    dateRange := some (p.dateRange.getD "1M")
    colorTheme := some (p.colorTheme.getD "light")
    autosize := some (p.autosize.getD true)
    isTransparent := some (p.isTransparent.getD false)
    chartOnly := some (p.chartOnly.getD false)
    noTimeScale := some (p.noTimeScale.getD false) }

/-- Scale modes for the SymbolOverview price axis
(src/charts/MiniChart.tsx line 286). -/
inductive ScaleMode where
  | normal
  | percentage
  | logarithmic
deriving DecidableEq

instance : BEq ScaleMode := instBEqOfDecidableEq

/-- Chart visualization types for SymbolOverview
(src/charts/MiniChart.tsx line 317). -/
inductive ChartType where
  | area
  | line
  | bar
  | candlestick
deriving DecidableEq

instance : BEq ChartType := instBEqOfDecidableEq

/-- Value tracking display modes (src/charts/MiniChart.tsx line 333). -/
inductive ValueTrackingMode where
  | floating_tooltip
  | colored_tooltip
  | legend
  | scale_labels
deriving DecidableEq

instance : BEq ValueTrackingMode := instBEqOfDecidableEq

/-- Line drawing styles (src/charts/MiniChart.tsx line 348). -/
inductive LineType where
  | simple
  | curved
  | stepLine
deriving DecidableEq

instance : BEq LineType := instBEqOfDecidableEq

/-- Time formats (src/charts/MiniChart.tsx line 393); the source's string
literals "12h" and "24h" are spelled h12 and h24 as Lean constructors. -/
inductive TimeFormat where
  | h12
  | h24
deriving DecidableEq

instance : BEq TimeFormat := instBEqOfDecidableEq

/-- ScaleModeMap (src/charts/MiniChart.tsx lines 410-414), embedded as the
association list written in the source; a missing key would read as JS
`undefined`, hence the `Option` result of lookup. -/
def ScaleModeMap : List (ScaleMode × String) :=
  [ (ScaleMode.normal, "Normal"),
    (ScaleMode.percentage, "Percentage"),
    (ScaleMode.logarithmic, "Logarithmic")]

/-- ChartTypeMap (src/charts/MiniChart.tsx lines 416-421). -/
def ChartTypeMap : List (ChartType × String) :=
  [ (ChartType.area, "area"),
    (ChartType.line, "line"),
    (ChartType.bar, "bars"),
    (ChartType.candlestick, "candlesticks")]

/-- ValueTrackingModeMap (src/charts/MiniChart.tsx lines 423-428). -/
def ValueTrackingModeMap : List (ValueTrackingMode × String) :=
  [ (ValueTrackingMode.floating_tooltip, "1"),
    (ValueTrackingMode.colored_tooltip, "2"),
    (ValueTrackingMode.legend, "3"),
    (ValueTrackingMode.scale_labels, "0")]

/-- LineTypeMap (src/charts/MiniChart.tsx lines 430-434). -/
def LineTypeMap : List (LineType × Int) :=
  [ (LineType.simple, 0),
    (LineType.curved, 2),
    (LineType.stepLine, 1)]

/-- TimeFormatMap (src/charts/MiniChart.tsx lines 436-439). -/
def TimeFormatMap : List (TimeFormat × String) :=
  [ (TimeFormat.h12, "12-hours"),
    (TimeFormat.h24, "24-hours")]

/-- The compareSymbol prop object (src/charts/MiniChart.tsx lines
399-408); declared on the props type but never read by the mapper. -/
structure CompareSymbol where
  symbol : String
  lineColor : Option String := none
  lineWidth : Option Int := none
  showLabels : Option Bool := none
deriving DecidableEq

/-- Props of the SymbolOverview component (src/charts/MiniChart.tsx lines
444-580), in declaration order; string-literal union types without a
mapping table (ScalePosition, HeaderFontSize, ChangeMode, Locale,
ColorTheme) are passed through unmapped and embedded as strings. -/
structure SymbolOverviewProps where
  symbols : List String
  width : Option Size := none
  height : Option Size := none
  locale : Option String := none
  scaleMode : Option ScaleMode := none
  scalePosition : Option String := none
  colorTheme : Option String := none
  chartType : Option ChartType := none
  valueTrackingMode : Option ValueTrackingMode := none
  compareSymbol : Option CompareSymbol := none
  lineType : Option LineType := none
  headerFontSize : Option String := none
  changeMode : Option String := none
  timeFormat : Option TimeFormat := none
  lineWidth : Option Int := none
  fontSize : Option Int := none
  fontColor : Option String := none
  trendLineColor : Option String := none
  underLineColor : Option String := none
  underLineBottomColor : Option String := none
  autosize : Option Bool := none
  isTransparent : Option Bool := none
  showTimeScale : Option Bool := none
  showHeader : Option Bool := none
  color : Option String := none
  lineColor : Option String := none
  topColor : Option String := none
  bottomColor : Option String := none
  upColor : Option String := none
  downColor : Option String := none
  borderUpColor : Option String := none
  borderDownColor : Option String := none
  wickUpColor : Option String := none
  wickDownColor : Option String := none
  gridLineColor : Option String := none
  widgetFontColor : Option String := none
  backgroundColor : Option String := none
  showVolume : Option Bool := none
  volumeUpColor : Option String := none
  volumeDownColor : Option String := none
  showDateRanges : Option Bool := none
  showSymbolLogo : Option Bool := none
  showMarketStatus : Option Bool := none
  showMA : Option Bool := none
  maLineColor : Option String := none
  maLineWidth : Option Int := none
  maLength : Option Int := none

/-- The merged SymbolOverview configuration after solid-js `mergeProps`
with the defaults of src/charts/MiniChart.tsx lines 668-701 (the defaults
object also carries a `chartOnly: false` entry, but no such prop exists
and the mapper derives the wire `chartOnly` from `showHeader`, so that
entry is dead and not part of the merged model). -/
structure SymbolOverviewMerged where
  symbols : List String
  width : Size
  height : Size
  locale : String
  scaleMode : ScaleMode
  scalePosition : String
  colorTheme : String
  chartType : ChartType
  valueTrackingMode : ValueTrackingMode
  compareSymbol : Option CompareSymbol
  lineType : LineType
  headerFontSize : String
  changeMode : String
  timeFormat : TimeFormat
  lineWidth : Int
  fontSize : Int
  fontColor : Option String
  trendLineColor : Option String
  underLineColor : Option String
  underLineBottomColor : Option String
  autosize : Bool
  isTransparent : Bool
  showTimeScale : Bool
  showHeader : Bool
  color : Option String
  lineColor : Option String
  topColor : Option String
  bottomColor : Option String
  upColor : Option String
  downColor : Option String
  borderUpColor : Option String
  borderDownColor : Option String
  wickUpColor : Option String
  wickDownColor : Option String
  gridLineColor : Option String
  widgetFontColor : Option String
  backgroundColor : Option String
  showVolume : Bool
  volumeUpColor : Option String
  volumeDownColor : Option String
  showDateRanges : Bool
  showSymbolLogo : Bool
  showMarketStatus : Bool
  showMA : Bool
  maLineColor : String
  maLineWidth : Int
  maLength : Int

/-- solid-js `mergeProps` for SymbolOverview (src/charts/MiniChart.tsx
lines 668-701). -/
def mergeSymbolOverviewProps (p : SymbolOverviewProps) : SymbolOverviewMerged :=
  { symbols := p.symbols
    width := p.width.getD Size.full
    height := p.height.getD Size.full
    locale := p.locale.getD "en"
    scaleMode := p.scaleMode.getD ScaleMode.normal
    scalePosition := p.scalePosition.getD "right"
    colorTheme := p.colorTheme.getD "light"
    chartType := p.chartType.getD ChartType.line
    valueTrackingMode := p.valueTrackingMode.getD ValueTrackingMode.floating_tooltip
    compareSymbol := p.compareSymbol
    lineType := p.lineType.getD LineType.simple
    headerFontSize := p.headerFontSize.getD "small"
    changeMode := p.changeMode.getD "price-and-percent"
    timeFormat := p.timeFormat.getD TimeFormat.h12
    lineWidth := p.lineWidth.getD 2
    fontSize := p.fontSize.getD 10
    fontColor := p.fontColor
    trendLineColor := p.trendLineColor
    underLineColor := p.underLineColor
    underLineBottomColor := p.underLineBottomColor
    autosize := p.autosize.getD true
    isTransparent := p.isTransparent.getD false
    showTimeScale := p.showTimeScale.getD true
    showHeader := p.showHeader.getD true
    color := p.color
    lineColor := p.lineColor
    topColor := p.topColor
    bottomColor := p.bottomColor
    upColor := p.upColor
    downColor := p.downColor
    borderUpColor := p.borderUpColor
    borderDownColor := p.borderDownColor
    wickUpColor := p.wickUpColor
    wickDownColor := p.wickDownColor
    gridLineColor := p.gridLineColor
    widgetFontColor := p.widgetFontColor
    backgroundColor := p.backgroundColor
    showVolume := p.showVolume.getD false
    volumeUpColor := p.volumeUpColor
    volumeDownColor := p.volumeDownColor
    showDateRanges := p.showDateRanges.getD true
    showSymbolLogo := p.showSymbolLogo.getD true
    showMarketStatus := p.showMarketStatus.getD true
    showMA := p.showMA.getD false
    maLineColor := p.maLineColor.getD "blue"
    maLineWidth := p.maLineWidth.getD 1
    maLength := p.maLength.getD 9 }

/-- Entries 1-12 of the SymbolOverview wire object literal
(src/charts/MiniChart.tsx lines 722-733), in source key order. -/
def soEntriesA (q : SymbolOverviewMerged) : List (String × Option JValue) :=
  [ ("autosize", some (JValue.bool q.autosize)),
    ("width", some (dimPayloadValue q.autosize q.width)),
    ("height", some (dimPayloadValue q.autosize q.height)),
    ("locale", some (JValue.str q.locale)),
    ("noTimeScale", some (JValue.bool (!q.showTimeScale))),
    ("colorTheme", some (JValue.str q.colorTheme)),
    ("scalePosition", some (JValue.str q.scalePosition)),
    ("scaleMode", (List.lookup q.scaleMode ScaleModeMap).map JValue.str),
    ("lineWidth", some (JValue.num q.lineWidth)),
    ("lineType", (List.lookup q.lineType LineTypeMap).map JValue.num),
    ("chartType", (List.lookup q.chartType ChartTypeMap).map JValue.str),
    ("valuesTracking", (List.lookup q.valueTrackingMode ValueTrackingModeMap).map JValue.str)]

/-- Entries 13-24 of the SymbolOverview wire object literal
(src/charts/MiniChart.tsx lines 734-745). -/
def soEntriesB (q : SymbolOverviewMerged) : List (String × Option JValue) :=
  [ ("timeHoursFormat", (List.lookup q.timeFormat TimeFormatMap).map JValue.str),
    ("headerFontSize", some (JValue.str q.headerFontSize)),
    ("hideDateRanges", some (JValue.bool (!q.showDateRanges))),
    ("hideMarketStatus", some (JValue.bool (!q.showMarketStatus))),
    ("hideSymbolLogo", some (JValue.bool (!q.showSymbolLogo))),
    ("fontSize", some (JValue.num q.fontSize)),
    ("fontColor", q.fontColor.map JValue.str),
    ("showVolume", some (JValue.bool q.showVolume)),
    ("volumeUpColor", q.volumeUpColor.map JValue.str),
    ("volumeDownColor", q.volumeDownColor.map JValue.str),
    ("showMA", some (JValue.bool q.showMA)),
    ("maLineColor", some (JValue.str q.maLineColor))]

/-- Entries 25-36 of the SymbolOverview wire object literal
(src/charts/MiniChart.tsx lines 746-762). -/
def soEntriesC (q : SymbolOverviewMerged) : List (String × Option JValue) :=
  [ ("maLineWidth", some (JValue.num q.maLineWidth)),
    ("maLength", some (JValue.num q.maLength)),
    ("symbols", some (JValue.arr (symbolsWire q.symbols))),
    ("chartOnly", some (JValue.bool (!q.showHeader))),
    ("trendLineColor", q.trendLineColor.map JValue.str),
    ("underLineColor", q.underLineColor.map JValue.str),
    ("underLineBottomColor", q.underLineBottomColor.map JValue.str),
    ("isTransparent", some (JValue.bool q.isTransparent)),
    ("color", q.color.map JValue.str),
    ("lineColor", q.lineColor.map JValue.str),
    ("topColor", q.topColor.map JValue.str),
    ("bottomColor", q.bottomColor.map JValue.str)]

/-- Entries 37-47 of the SymbolOverview wire object literal
(src/charts/MiniChart.tsx lines 763-775). -/
def soEntriesD (q : SymbolOverviewMerged) : List (String × Option JValue) :=
  [ ("upColor", q.upColor.map JValue.str),
    ("downColor", q.downColor.map JValue.str),
    ("borderUpColor", q.borderUpColor.map JValue.str),
    ("borderDownColor", q.borderDownColor.map JValue.str),
    ("wickUpColor", q.wickUpColor.map JValue.str),
    ("wickDownColor", q.wickDownColor.map JValue.str),
    ("gridLineColor", q.gridLineColor.map JValue.str),
    ("widgetFontColor", q.widgetFontColor.map JValue.str),
    ("backgroundColor", q.backgroundColor.map JValue.str),
    ("changeMode", some (JValue.str q.changeMode)),
    ("dateRanges", some (JValue.arr
      (["1d|1", "1m|30", "3m|60", "12m|1D", "60m|1W", "all|1M"].map JValue.str)))]

/-- The SymbolOverview wire payload (src/charts/MiniChart.tsx lines
721-776): the object literal's 47 entries in source key order (split into
four sub-lists only to keep elaboration tractable). Mapping-table
accesses (`ScaleModeMap[...]` etc.) are association-list lookups whose
miss would read as JS `undefined`, and properties valued `undefined` are
dropped by `JSON.stringify`. -/
def symbolOverviewPayload (q : SymbolOverviewMerged) : List (String × JValue) :=
  jsonObject (soEntriesA q ++ soEntriesB q ++ soEntriesC q ++ soEntriesD q)

/-- Feed modes of the TopStories widget (src/news/TopStories.tsx line 19). -/
inductive TopStoriesFeedMode where
  | all_symbols
  | market
  | symbol
deriving DecidableEq

/-- The wire spelling of a feed mode: the TS value is the string literal
itself and is passed through unmapped. -/
def feedModeWire (m : TopStoriesFeedMode) : String :=
  match m with
  | TopStoriesFeedMode.all_symbols => "all_symbols"
  | TopStoriesFeedMode.market => "market"
  | TopStoriesFeedMode.symbol => "symbol"

/-- Props of the TopStories component (src/news/TopStories.tsx lines
38-130). The TS union type statically forbids supplying `symbol` with a
non-"symbol" feed mode; the embedding keeps `symbol` as an `Option` so
that the payload's behaviour can be stated for every runtime value. -/
structure TopStoriesProps where
  width : Option Size := none
  height : Option Size := none
  colorTheme : Option String := none
  locale : Option String := none
  displayMode : Option String := none
  autosize : Option Bool := none
  isTransparent : Option Bool := none
  feedMode : Option TopStoriesFeedMode := none
  symbol : Option String := none
deriving DecidableEq

/-- The merged TopStories configuration (defaults at
src/news/TopStories.tsx lines 175-187). -/
structure TopStoriesMerged where
  width : Size
  height : Size
  colorTheme : String
  locale : String
  displayMode : String
  autosize : Bool
  isTransparent : Bool
  feedMode : TopStoriesFeedMode
  symbol : Option String
deriving DecidableEq

/-- solid-js `mergeProps` for TopStories (src/news/TopStories.tsx lines
175-187); `symbol` has no default. -/
def mergeTopStoriesProps (p : TopStoriesProps) : TopStoriesMerged :=
  { width := p.width.getD Size.full
    height := p.height.getD Size.full
    colorTheme := p.colorTheme.getD "light"
    locale := p.locale.getD "en"
    displayMode := p.displayMode.getD "adaptive"
    autosize := p.autosize.getD true
    isTransparent := p.isTransparent.getD false
    feedMode := p.feedMode.getD TopStoriesFeedMode.all_symbols
    symbol := p.symbol }

/-- The TopStories wire payload, translated from
src/news/TopStories.tsx lines 202-214: the base `widgetConfig` object
literal, plus the `symbol` property assigned only under
`if (_props.feedMode === "symbol")`. -/
def topStoriesPayload (q : TopStoriesMerged) : List (String × JValue) :=
  jsonObject
    ([ ("width", some (dimPayloadValue q.autosize q.width)),
       ("height", some (dimPayloadValue q.autosize q.height)),
       ("locale", some (JValue.str q.locale)),
       ("colorTheme", some (JValue.str q.colorTheme)),
       ("feedMode", some (JValue.str (feedModeWire q.feedMode))),
       ("displayMode", some (JValue.str q.displayMode)),
       ("isTransparent", some (JValue.bool q.isTransparent))]
      ++ (if q.feedMode = TopStoriesFeedMode.symbol
          then [("symbol", q.symbol.map JValue.str)]
          else []))

/-- Supported countries for EconomicCalendar filtering (the Country union
type of the EconomicCalendar source file, lines 26-119); multi-word
country names become camelCase constructors. -/
inductive Country where
  | unitedStates
  | canada
  | austria
  | belgium
  | cyprus
  | czechRepublic
  | denmark
  | estonia
  | europeanUnion
  | finland
  | france
  | germany
  | greece
  | hungary
  | iceland
  | ireland
  | italy
  | latvia
  | lithuania
  | luxembourg
  | netherlands
  | norway
  | poland
  | portugal
  | romania
  | russia
  | serbia
  | slovakia
  | spain
  | sweden
  | switzerland
  | ukraine
  | unitedKingdom
  | angola
  | bahrain
  | botswana
  | egypt
  | ethiopia
  | ghana
  | israel
  | kenya
  | kuwait
  | malawi
  | mauritius
  | morocco
  | mozambique
  | namibia
  | nigeria
  | oman
  | qatar
  | rwanda
  | saudiArabia
  | seychelles
  | southAfrica
  | tanzania
  | tunisia
  | turkey
  | uganda
  | unitedArabEmirates
  | zambia
  | zimbabwe
  | argentina
  | brazil
  | chile
  | colombia
  | mexico
  | peru
  | venezuela
  | australia
  | bangladesh
  | china
  | hongKong
  | india
  | indonesia
  | japan
  | southKorea
  | sriLanka
  | malaysia
  | newZealand
  | pakistan
  | philippines
  | singapore
  | taiwan
  | thailand
  | vietnam
deriving DecidableEq

instance : BEq Country := instBEqOfDecidableEq

/-- CountryMap (EconomicCalendar source file lines 125-220): country name
to TradingView wire code, embedded as the association list written in the
source. -/
def CountryMap : List (Country × String) :=
  [
    (Country.unitedStates, "us"),
    (Country.canada, "ca"),
    (Country.austria, "at"),
    (Country.belgium, "be"),
    (Country.cyprus, "cy"),
    (Country.czechRepublic, "cz"),
    (Country.denmark, "dk"),
    (Country.estonia, "ee"),
    (Country.europeanUnion, "eu"),
    (Country.finland, "fi"),
    (Country.france, "fr"),
    (Country.germany, "de"),
    (Country.greece, "gr"),
    (Country.hungary, "hu"),
    (Country.iceland, "is"),
    (Country.ireland, "ie"),
    (Country.italy, "it"),
    (Country.latvia, "lv"),
    (Country.lithuania, "lt"),
    (Country.luxembourg, "lu"),
    (Country.netherlands, "nl"),
    (Country.norway, "no"),
    (Country.poland, "pl"),
    (Country.portugal, "pt"),
    (Country.romania, "ro"),
    (Country.russia, "ru"),
    (Country.serbia, "rs"),
    (Country.slovakia, "sk"),
    (Country.spain, "es"),
    (Country.sweden, "se"),
    (Country.switzerland, "ch"),
    (Country.ukraine, "ua"),
    (Country.unitedKingdom, "gb"),
    (Country.angola, "ao"),
    (Country.bahrain, "bh"),
    (Country.botswana, "bw"),
    (Country.egypt, "eg"),
    (Country.ethiopia, "et"),
    (Country.ghana, "gh"),
    (Country.israel, "il"),
    (Country.kenya, "ke"),
    (Country.kuwait, "kw"),
    (Country.malawi, "mw"),
    (Country.mauritius, "mu"),
    (Country.morocco, "ma"),
    (Country.mozambique, "mz"),
    (Country.namibia, "na"),
    (Country.nigeria, "ng"),
    (Country.oman, "om"),
    (Country.qatar, "qa"),
    (Country.rwanda, "rw"),
    (Country.saudiArabia, "sa"),
    (Country.seychelles, "sc"),
    (Country.southAfrica, "za"),
    (Country.tanzania, "tz"),
    (Country.tunisia, "tn"),
    (Country.turkey, "tr"),
    (Country.uganda, "ug"),
    (Country.unitedArabEmirates, "ae"),
    (Country.zambia, "zm"),
    (Country.zimbabwe, "zw"),
    (Country.argentina, "ar"),
    (Country.brazil, "br"),
    (Country.chile, "cl"),
    (Country.colombia, "co"),
    (Country.mexico, "mx"),
    (Country.peru, "pe"),
    (Country.venezuela, "ve"),
    (Country.australia, "au"),
    (Country.bangladesh, "bd"),
    (Country.china, "cn"),
    (Country.hongKong, "hk"),
    (Country.india, "in"),
    (Country.indonesia, "id"),
    (Country.japan, "jp"),
    (Country.southKorea, "kr"),
    (Country.sriLanka, "lk"),
    (Country.malaysia, "my"),
    (Country.newZealand, "nz"),
    (Country.pakistan, "pk"),
    (Country.philippines, "ph"),
    (Country.singapore, "sg"),
    (Country.taiwan, "tw"),
    (Country.thailand, "th"),
    (Country.vietnam, "vn")]

/-- First-occurrence deduplication with an accumulator of already-seen
elements: the order-preserving semantics of JS
`new Array(...new Set(list))`. -/
def jsSetDedupGo {α : Type} [DecidableEq α] : List α → List α → List α
  | [], _ => []
  | a :: rest, seen =>
    if a ∈ seen then jsSetDedupGo rest seen
    else a :: jsSetDedupGo rest (a :: seen)

/-- `new Array(...new Set(countries))` from the EconomicCalendar source
file line 374: a JS Set keeps one copy of each element in insertion
(first-occurrence) order. -/
def jsSetDedup {α : Type} [DecidableEq α] (l : List α) : List α :=
  jsSetDedupGo l []

/-- The country wire code `CountryMap[country]`; a missed lookup would be
JS `undefined`, which `Array.prototype.join` renders as the empty
string. -/
def countryWireCode (c : Country) : String :=
  (List.lookup c CountryMap).getD ""

/-- `countryFilter` from the EconomicCalendar source file lines 402-404:
`countries().map((country) => CountryMap[country]).join(",")` applied to
the deduplicated countries list. -/
def countryFilter (cs : List Country) : String :=
  String.intercalate "," ((jsSetDedup cs).map countryWireCode)

/-- First-occurrence order as the spec words it: fold over the input,
appending each element the first time it is seen. -/
def firstOccurrences {α : Type} [DecidableEq α] (l : List α) : List α :=
  l.foldl (fun acc c => if c ∈ acc then acc else acc ++ [c]) []

theorem mem_jsSetDedupGo {α : Type} [DecidableEq α] (x : α) :
    ∀ (l seen : List α), x ∈ jsSetDedupGo l seen ↔ x ∈ l ∧ x ∉ seen := by
  intro l
  induction l with
  | nil => intro seen; simp [jsSetDedupGo]
  | cons a rest ih =>
    intro seen
    simp only [jsSetDedupGo]
    by_cases ha : a ∈ seen
    · rw [if_pos ha, ih]
      constructor
      · rintro ⟨h1, h2⟩
        exact ⟨List.mem_cons_of_mem _ h1, h2⟩
      · rintro ⟨h1, h2⟩
        rcases List.mem_cons.mp h1 with h3 | h3
        · exact absurd (h3 ▸ ha) h2
        · exact ⟨h3, h2⟩
    · rw [if_neg ha]
      simp only [List.mem_cons, ih]
      constructor
      · rintro (h1 | ⟨h1, h2⟩)
        · exact ⟨Or.inl h1, h1 ▸ ha⟩
        · exact ⟨Or.inr h1, fun hc => h2 (Or.inr hc)⟩
      · rintro ⟨h1 | h1, h2⟩
        · exact Or.inl h1
        · by_cases hxa : x = a
          · exact Or.inl hxa
          · exact Or.inr ⟨h1, fun hc => by
              rcases hc with h3 | h3
              · exact hxa h3
              · exact h2 h3⟩

theorem nodup_jsSetDedupGo {α : Type} [DecidableEq α] :
    ∀ (l seen : List α), (jsSetDedupGo l seen).Nodup := by
  intro l
  induction l with
  | nil => intro seen; simp [jsSetDedupGo]
  | cons a rest ih =>
    intro seen
    simp only [jsSetDedupGo]
    by_cases ha : a ∈ seen
    · rw [if_pos ha]
      exact ih seen
    · rw [if_neg ha]
      refine List.nodup_cons.mpr ⟨?_, ih (a :: seen)⟩
      intro hc
      exact ((mem_jsSetDedupGo a rest (a :: seen)).mp hc).2 (List.mem_cons_self a seen)

theorem jsSetDedupGo_congr {α : Type} [DecidableEq α] :
    ∀ (l seen seen' : List α), (∀ x, x ∈ seen ↔ x ∈ seen') →
      jsSetDedupGo l seen = jsSetDedupGo l seen' := by
  intro l
  induction l with
  | nil => intro seen seen' _; rfl
  | cons a rest ih =>
    intro seen seen' hss
    simp only [jsSetDedupGo]
    by_cases ha : a ∈ seen
    · rw [if_pos ha, if_pos ((hss a).mp ha)]
      exact ih seen seen' hss
    · rw [if_neg ha, if_neg (fun hc => ha ((hss a).mpr hc))]
      refine congrArg (a :: ·) (ih (a :: seen) (a :: seen') ?_)
      intro x
      simp only [List.mem_cons, hss x]

theorem foldl_firstOccurrences_go {α : Type} [DecidableEq α] :
    ∀ (l acc : List α),
      l.foldl (fun acc c => if c ∈ acc then acc else acc ++ [c]) acc
        = acc ++ jsSetDedupGo l acc := by
  intro l
  induction l with
  | nil => intro acc; simp [jsSetDedupGo]
  | cons a rest ih =>
    intro acc
    simp only [List.foldl_cons, jsSetDedupGo]
    by_cases ha : a ∈ acc
    · rw [if_pos ha, if_pos ha, ih]
    · rw [if_neg ha, if_neg ha, ih]
      rw [jsSetDedupGo_congr rest (acc ++ [a]) (a :: acc)
        (fun x => by simp [List.mem_append, List.mem_cons, or_comm])]
      simp [List.append_assoc]

/-- The source's Set-based dedup computes exactly first-occurrence order. -/
theorem jsSetDedup_eq_firstOccurrences {α : Type} [DecidableEq α] (l : List α) :
    jsSetDedup l = firstOccurrences l := by
  unfold jsSetDedup firstOccurrences
  rw [foldl_firstOccurrences_go l []]
  simp

theorem nodup_jsSetDedup {α : Type} [DecidableEq α] (l : List α) :
    (jsSetDedup l).Nodup :=
  nodup_jsSetDedupGo l []

theorem mem_jsSetDedup {α : Type} [DecidableEq α] (x : α) (l : List α) :
    x ∈ jsSetDedup l ↔ x ∈ l := by
  unfold jsSetDedup
  rw [mem_jsSetDedupGo]
  simp

/-- Technical indicators available on the AdvancedChart
(the AdvancedChartIndicator union type, src/screeners/Screener.tsx lines
930-1045), constructor names verbatim from the source. -/
inductive AdvancedChartIndicator where
  | volume24h
  | accumulationDistribution
  | advanceDeclineLine
  | advanceDeclineRatio
  | advanceDeclineRatioBars
  | arnaudLegouxMovingAverage
  | aroon
  | averageDayRange
  | averageDirectionalIndex
  | averageTrueRange
  | awesomeOscillator
  | balanceOfPower
  | bbTrend
  | bollingerBands
  | bollingerBandsPercentB
  | bollingerBandwidth
  | bollingerBars
  | bullBearPower
  | chaikinMoneyFlow
  | chaikinOscillator
  | chandeKrollStop
  | chandeMomentumOscillator
  | chopZone
  | choppinessIndex
  | commodityChannelIndex
  | connorsRsi
  | coppockCurve
  | correlationCoefficientBasic
  | correlationCoefficient
  | cumulativeVolumeDelta
  | cumulativeVolumeIndex
  | detrendedPriceOscillator
  | directionalMovementIndex
  | donchianChannels
  | doubleEma
  | easeOfMovement
  | elderForceIndex
  | envelope
  | fisherTransform
  | gaps
  | historicalVolatility
  | hullMovingAverage
  | ichimokuCloud
  | keltnerChannels
  | klingerOscillator
  | knowSureThing
  | leastSquaresMovingAverage
  | linearRegressionChannel
  | maCross
  | massIndex
  | mcginleyDynamic
  | median
  | momentum
  | moneyFlowIndex
  | moonPhases
  | movingAverageConvergenceDivergence
  | movingAverageExponential
  | movingAverageRibbon
  | movingAverageSimple
  | movingAverageWeighted
  | multiTimePeriodCharts
  | netVolume
  | onBalanceVolume
  | openInterest
  | parabolicSar
  | performance
  | pivotPointsHighLow
  | pivotPointsStandard
  | priceOscillator
  | priceTarget
  | priceVolumeTrendBasic
  | priceVolumeTrend
  | rankCorrelationIndex
  | rateOfChange
  | rciRibbon
  | relativeStrengthIndex
  | relativeVigorIndex
  | relativeVolatilityIndex
  | relativeVolumeAtTime
  | robBookerIntradayPivotPoints
  | robBookerKnoxvilleDivergence
  | robBookerMissedPivotPoints
  | robBookerReversal
  | robBookerZivGhostPivots
  | rsiDivergenceIndicator
  | seasonality
  | smiErgodicIndicator
  | smiErgodicOscillator
  | smoothedMovingAverage
  | stochastic
  | stochasticMomentumIndex
  | stochasticRsi
  | supertrend
  | technicalRatings
  | timeWeightedAveragePrice
  | tradingSessions
  | trendStrengthIndex
  | tripleEma
  | trix
  | trueStrengthIndex
  | ultimateOscillator
  | upDownVolume
  | visibleAveragePrice
  | volatilityStop
  | volume
  | volumeDelta
  | volumeOscillator
  | volumeWeightedAveragePrice
  | volumeWeightedMovingAverage
  | vortexIndicator
  | williamsAlligator
  | williamsFractals
  | williamsPercentRange
  | woodiesCci
  | zigZag
deriving DecidableEq

instance : BEq AdvancedChartIndicator := instBEqOfDecidableEq

/-- IndicatorMap (src/screeners/Screener.tsx lines 1051-1167): indicator
enum values to TradingView internal indicator IDs, embedded as the
association list written in the source. -/
def IndicatorMap : List (AdvancedChartIndicator × String) :=
  [
    ( AdvancedChartIndicator.volume24h, "STD;24h%Volume"),
    ( AdvancedChartIndicator.accumulationDistribution, "STD;Accumulation_Distribution"),
    ( AdvancedChartIndicator.advanceDeclineLine, "STD;Advance%1Decline%1Line"),
    ( AdvancedChartIndicator.advanceDeclineRatio, "STD;Advance%1Decline%1Ratio"),
    ( AdvancedChartIndicator.advanceDeclineRatioBars, "STD;Advance_Decline_Ratio_Bars"),
    ( AdvancedChartIndicator.arnaudLegouxMovingAverage, "STD;Arnaud%1Legoux%1Moving%1Average"),
    ( AdvancedChartIndicator.aroon, "STD;Aroon"),
    ( AdvancedChartIndicator.averageDayRange, "STD;Average%Day%Range"),
    ( AdvancedChartIndicator.averageDirectionalIndex, "STD;Average%1Directional%1Index"),
    ( AdvancedChartIndicator.averageTrueRange, "STD;Average_True_Range"),
    ( AdvancedChartIndicator.awesomeOscillator, "STD;Awesome_Oscillator"),
    ( AdvancedChartIndicator.balanceOfPower, "STD;Balance%1of%1Power"),
    ( AdvancedChartIndicator.bbTrend, "STD;BBTrend"),
    ( AdvancedChartIndicator.bollingerBands, "STD;Bollinger_Bands"),
    ( AdvancedChartIndicator.bollingerBandsPercentB, "STD;Bollinger_Bands_B"),
    ( AdvancedChartIndicator.bollingerBandwidth, "STD;Bollinger_Bands_Width"),
    ( AdvancedChartIndicator.bollingerBars, "STD;Bollinger%1Bars"),
    ( AdvancedChartIndicator.bullBearPower, "STD;Bull%Bear%Power"),
    ( AdvancedChartIndicator.chaikinMoneyFlow, "STD;Chaikin_Money_Flow"),
    ( AdvancedChartIndicator.chaikinOscillator, "STD;Chaikin_Oscillator"),
    ( AdvancedChartIndicator.chandeKrollStop, "STD;Chande%1Kroll%1Stop"),
    ( AdvancedChartIndicator.chandeMomentumOscillator, "STD;Chande_Momentum_Oscillator"),
    ( AdvancedChartIndicator.chopZone, "STD;Chop%1Zone"),
    ( AdvancedChartIndicator.choppinessIndex, "STD;Choppiness_Index"),
    ( AdvancedChartIndicator.commodityChannelIndex, "STD;CCI"),
    ( AdvancedChartIndicator.connorsRsi, "STD;Connors_RSI"),
    ( AdvancedChartIndicator.coppockCurve, "STD;Coppock%1Curve"),
    ( AdvancedChartIndicator.correlationCoefficientBasic, "CorrelationCoefficient@tv-basicstudies"),
    ( AdvancedChartIndicator.correlationCoefficient, "STD;Correlation_Coeff"),
    ( AdvancedChartIndicator.cumulativeVolumeDelta, "STD;Cumulative%1Volume%1Delta"),
    ( AdvancedChartIndicator.cumulativeVolumeIndex, "STD;Cumulative%1Volume%1Index"),
    ( AdvancedChartIndicator.detrendedPriceOscillator, "STD;DPO"),
    ( AdvancedChartIndicator.directionalMovementIndex, "STD;DMI"),
    ( AdvancedChartIndicator.donchianChannels, "STD;Donchian_Channels"),
    ( AdvancedChartIndicator.doubleEma, "STD;DEMA"),
    ( AdvancedChartIndicator.easeOfMovement, "STD;EOM"),
    ( AdvancedChartIndicator.elderForceIndex, "STD;EFI"),
    ( AdvancedChartIndicator.envelope, "STD;ENV"),
    ( AdvancedChartIndicator.fisherTransform, "STD;Fisher_Transform"),
    ( AdvancedChartIndicator.gaps, "STD;Gaps"),
    ( AdvancedChartIndicator.historicalVolatility, "STD;Historical_Volatility"),
    ( AdvancedChartIndicator.hullMovingAverage, "STD;Hull%1MA"),
    ( AdvancedChartIndicator.ichimokuCloud, "STD;Ichimoku%1Cloud"),
    ( AdvancedChartIndicator.keltnerChannels, "STD;Keltner_Channels"),
    ( AdvancedChartIndicator.klingerOscillator, "STD;Klinger%1Oscillator"),
    ( AdvancedChartIndicator.knowSureThing, "STD;Know_Sure_Thing"),
    ( AdvancedChartIndicator.leastSquaresMovingAverage, "STD;Least%1Squares%1Moving%1Average"),
    ( AdvancedChartIndicator.linearRegressionChannel, "STD;Linear_Regression"),
    ( AdvancedChartIndicator.maCross, "STD;MA%1Cross"),
    ( AdvancedChartIndicator.massIndex, "STD;Mass%1Index"),
    ( AdvancedChartIndicator.mcginleyDynamic, "STD;McGinley%1Dynamic"),
    ( AdvancedChartIndicator.median, "STD;Median"),
    ( AdvancedChartIndicator.momentum, "STD;Momentum"),
    ( AdvancedChartIndicator.moneyFlowIndex, "STD;Money_Flow"),
    ( AdvancedChartIndicator.moonPhases, "MoonPhases@tv-basicstudies"),
    ( AdvancedChartIndicator.movingAverageConvergenceDivergence, "STD;MACD"),
    ( AdvancedChartIndicator.movingAverageExponential, "STD;EMA"),
    ( AdvancedChartIndicator.movingAverageRibbon, "STD;MA%Ribbon"),
    ( AdvancedChartIndicator.movingAverageSimple, "STD;SMA"),
    ( AdvancedChartIndicator.movingAverageWeighted, "STD;WMA"),
    ( AdvancedChartIndicator.multiTimePeriodCharts, "STD;Multi-Time%Period%Charts"),
    ( AdvancedChartIndicator.netVolume, "STD;Net%1Volume"),
    ( AdvancedChartIndicator.onBalanceVolume, "STD;On_Balance_Volume"),
    ( AdvancedChartIndicator.openInterest, "STD;Open%Interest"),
    ( AdvancedChartIndicator.parabolicSar, "STD;PSAR"),
    ( AdvancedChartIndicator.performance, "STD;Performance"),
    ( AdvancedChartIndicator.pivotPointsHighLow, "STD;Pivot%1Points%1High%1Low"),
    ( AdvancedChartIndicator.pivotPointsStandard, "STD;Pivot%1Points%1Standard"),
    ( AdvancedChartIndicator.priceOscillator, "STD;Price_Oscillator"),
    ( AdvancedChartIndicator.priceTarget, "STD;Price%1Target"),
    ( AdvancedChartIndicator.priceVolumeTrendBasic, "PriceVolumeTrend@tv-basicstudies"),
    ( AdvancedChartIndicator.priceVolumeTrend, "STD;Price_Volume_Trend"),
    ( AdvancedChartIndicator.rankCorrelationIndex, "STD;Rank_Correlation_Index"),
    ( AdvancedChartIndicator.rateOfChange, "STD;ROC"),
    ( AdvancedChartIndicator.rciRibbon, "STD;RCI_Ribbon"),
    ( AdvancedChartIndicator.relativeStrengthIndex, "STD;RSI"),
    ( AdvancedChartIndicator.relativeVigorIndex, "STD;Relative_Vigor_Index"),
    ( AdvancedChartIndicator.relativeVolatilityIndex, "STD;Relative_Volatility_Index"),
    ( AdvancedChartIndicator.relativeVolumeAtTime, "STD;Relative%1Volume%1at%1Time"),
    ( AdvancedChartIndicator.robBookerIntradayPivotPoints, "BookerIntradayPivots@tv-basicstudies"),
    ( AdvancedChartIndicator.robBookerKnoxvilleDivergence, "BookerKnoxvilleDivergence@tv-basicstudies"),
    ( AdvancedChartIndicator.robBookerMissedPivotPoints, "BookerMissedPivots@tv-basicstudies"),
    ( AdvancedChartIndicator.robBookerReversal, "BookerReversal@tv-basicstudies"),
    ( AdvancedChartIndicator.robBookerZivGhostPivots, "STD;Rob%1Booker%1Ghost%1Pivots%1v2"),
    ( AdvancedChartIndicator.rsiDivergenceIndicator, "STD;Divergence%1Indicator"),
    ( AdvancedChartIndicator.seasonality, "STD;Seasonality"),
    ( AdvancedChartIndicator.smiErgodicIndicator, "STD;SMI_Ergodic_Indicator_Oscillator"),
    ( AdvancedChartIndicator.smiErgodicOscillator, "STD;SMI_Ergodic_Oscillator"),
    ( AdvancedChartIndicator.smoothedMovingAverage, "STD;Smoothed%1Moving%1Average"),
    ( AdvancedChartIndicator.stochastic, "STD;Stochastic"),
    ( AdvancedChartIndicator.stochasticMomentumIndex, "STD;SMI"),
    ( AdvancedChartIndicator.stochasticRsi, "STD;Stochastic_RSI"),
    ( AdvancedChartIndicator.supertrend, "STD;Supertrend"),
    ( AdvancedChartIndicator.technicalRatings, "STD;Technical%1Ratings"),
    ( AdvancedChartIndicator.timeWeightedAveragePrice, "STD;Time%1Weighted%1Average%1Price"),
    ( AdvancedChartIndicator.tradingSessions, "STD;Trading%1Sessions"),
    ( AdvancedChartIndicator.trendStrengthIndex, "STD;Trend%1Strength%1Index"),
    ( AdvancedChartIndicator.tripleEma, "STD;TEMA"),
    ( AdvancedChartIndicator.trix, "STD;TRIX"),
    ( AdvancedChartIndicator.trueStrengthIndex, "STD;True%1Strength%1Indicator"),
    ( AdvancedChartIndicator.ultimateOscillator, "STD;Ultimate_Oscillator"),
    ( AdvancedChartIndicator.upDownVolume, "STD;UP_DOWN_Volume"),
    ( AdvancedChartIndicator.visibleAveragePrice, "STD;Visible%1Average%1Price"),
    ( AdvancedChartIndicator.volatilityStop, "STD;Volatility_Stop"),
    ( AdvancedChartIndicator.volume, "Volume@tv-basicstudies"),
    ( AdvancedChartIndicator.volumeDelta, "STD;Volume%1Delta"),
    ( AdvancedChartIndicator.volumeOscillator, "STD;Volume%1Oscillator"),
    ( AdvancedChartIndicator.volumeWeightedAveragePrice, "STD;VWAP"),
    ( AdvancedChartIndicator.volumeWeightedMovingAverage, "STD;VWMA"),
    ( AdvancedChartIndicator.vortexIndicator, "STD;Vortex%1Indicator"),
    ( AdvancedChartIndicator.williamsAlligator, "STD;Williams_Alligator"),
    ( AdvancedChartIndicator.williamsFractals, "STD;Whilliams_Fractals"),
    ( AdvancedChartIndicator.williamsPercentRange, "STD;Willams_R"),
    ( AdvancedChartIndicator.woodiesCci, "STD;Woodies%1CCI"),
    ( AdvancedChartIndicator.zigZag, "STD;Zig_Zag")]

/-- C1: at most one live widget root exists per controller instance at any
time: after the initial run and N sequential configuration changes,
exactly one widget root (the latest generation) is attached to the outer
container, exactly N+1 widget roots were ever created, and the event
trace equals the canonical interleaving in which generation k's root is
removed to completion before generation k+1's root is created. -/
theorem lifecycle_single_live_root (n : Nat) :
    (runLifecycle n).attached = [n] ∧
    (runLifecycle n).createdCount = n + 1 ∧
    countCreated (runLifecycle n).trace = n + 1 ∧
    (runLifecycle n).trace = canonicalTrace n := by
  rw [runLifecycle_state n]
  exact ⟨rfl, rfl, countCreated_canonicalTrace n, rfl⟩

/-- C4: when the asynchronous script load fails, the mount cycle invokes
the caller-supplied onError callback exactly once with the underlying
error; it creates exactly one widget root (no retry creates a second),
removes none preemptively, and never throws; with no onError supplied the
failure is silently swallowed (no calls, still no throw, same DOM
behaviour). -/
theorem mountCycle_error_reported_once_no_retry (e : String) :
    (mountCycle true (LoadResult.failed e)).onErrorCalls = [e] ∧
    (mountCycle true (LoadResult.failed e)).onErrorCalls.length = 1 ∧
    (mountCycle true (LoadResult.failed e)).rootsCreated = 1 ∧
    (mountCycle true (LoadResult.failed e)).rootsRemoved = 0 ∧
    (mountCycle true (LoadResult.failed e)).throws = false ∧
    (mountCycle false (LoadResult.failed e)).onErrorCalls = [] ∧
    (mountCycle false (LoadResult.failed e)).rootsCreated = 1 ∧
    (mountCycle false (LoadResult.failed e)).throws = false :=
  ⟨rfl, rfl, rfl, rfl, rfl, rfl, rfl, rfl⟩

/-- C9: merging a MiniChart configuration with some optional fields
omitted yields exactly the merged configuration of the otherwise-identical
configuration whose omitted defaulted fields are explicitly set to their
documented defaults: defaulting is a deterministic merge in which an
explicit prop overrides the default. -/
theorem miniChart_defaulting_idempotent (p : MiniChartProps) :
    mergeMiniChartProps p = mergeMiniChartProps (miniChartExplicitDefaults p) := rfl

theorem pix_beq_full (n : Int) : (Size.pix n == Size.full) = false := rfl

/-- C5: in the MiniChart wire payload, autosize = true (or a "full"
width/height) makes the width/height fields the string "100%", while
autosize = false with numeric pixel sizes passes the numbers through
unchanged (as numbers, with no clamping or validation: any integer is
forwarded). -/
theorem miniChart_dimension_payload (q : MiniChartMerged) :
    (q.autosize = true →
      lookupKey (miniChartPayload q) "width" = some (JValue.str "100%") ∧
      lookupKey (miniChartPayload q) "height" = some (JValue.str "100%")) ∧
    (q.width = Size.full →
      lookupKey (miniChartPayload q) "width" = some (JValue.str "100%")) ∧
    (q.height = Size.full →
      lookupKey (miniChartPayload q) "height" = some (JValue.str "100%")) ∧
    (q.autosize = false → ∀ w h : Int, q.width = Size.pix w → q.height = Size.pix h →
      lookupKey (miniChartPayload q) "width" = some (JValue.num w) ∧
      lookupKey (miniChartPayload q) "height" = some (JValue.num h)) := by
  refine ⟨?_, ?_, ?_, ?_⟩
  · intro ha
    constructor <;>
      simp [miniChartPayload, jsonObject, lookupKey, List.lookup, dimPayloadValue, ha]
  · intro hw
    simp [miniChartPayload, jsonObject, lookupKey, List.lookup, dimPayloadValue, hw]
  · intro hh
    simp [miniChartPayload, jsonObject, lookupKey, List.lookup, dimPayloadValue, hh]
  · intro ha w h hw hh
    constructor <;>
      simp [miniChartPayload, jsonObject, lookupKey, List.lookup, dimPayloadValue,
        ha, hw, hh, pix_beq_full]

/-- Concrete MiniChart configuration of spec Scenario A: symbol with
width "full" and autosize true. -/
def miniChartCfgA : MiniChartMerged :=
  mergeMiniChartProps
    { symbol := "NASDAQ:AAPL", width := some Size.full, autosize := some true }

/-- Concrete MiniChart configuration of spec Scenario B: 800 by 600
pixels with autosize false. -/
def miniChartCfgB : MiniChartMerged :=
  mergeMiniChartProps
    { symbol := "NASDAQ:AAPL", width := some (Size.pix 800),
      height := some (Size.pix 600), autosize := some false }

theorem miniChart_dimension_payload_witness :
    lookupKey (miniChartPayload miniChartCfgA) "width" = some (JValue.str "100%") ∧
    lookupKey (miniChartPayload miniChartCfgA) "height" = some (JValue.str "100%") ∧
    lookupKey (miniChartPayload miniChartCfgB) "width" = some (JValue.num 800) ∧
    lookupKey (miniChartPayload miniChartCfgB) "height" = some (JValue.num 600) :=
  ⟨((miniChart_dimension_payload miniChartCfgA).1 rfl).1,
   ((miniChart_dimension_payload miniChartCfgA).1 rfl).2,
   ((miniChart_dimension_payload miniChartCfgB).2.2.2 rfl 800 600 rfl rfl).1,
   ((miniChart_dimension_payload miniChartCfgB).2.2.2 rfl 800 600 rfl rfl).2⟩

/-- C10: the SymbolOverview symbols array is mapped entrywise, preserving
order and length, to a two-element tuple [displayName, symbol + "|1D"],
where displayName is the second ":"-separated part of the symbol when it
contains a colon and the symbol itself otherwise. -/
theorem symbolOverview_symbols_mapping (syms : List String) (i : Nat) :
    (symbolsWire syms).length = syms.length ∧
    (i < syms.length →
      (symbolsWire syms)[i]? =
        some (JValue.arr [JValue.str (specDisplayName (syms.getD i "")),
                          JValue.str (syms.getD i "" ++ "|1D")])) := by
  constructor
  · simp [symbolsWire]
  · intro h
    rw [symbolsWire, List.getElem?_map, List.getElem?_eq_getElem h]
    rw [List.getD_eq_getElem syms "" h]
    simp [symbolEntry, displayName_eq_specDisplayName]

theorem symbolOverview_symbols_mapping_witness :
    (symbolsWire ["NASDAQ:AAPL", "BTCUSD"]).length = 2 ∧
    (symbolsWire ["NASDAQ:AAPL", "BTCUSD"])[0]? =
      some (JValue.arr [JValue.str "AAPL", JValue.str "NASDAQ:AAPL|1D"]) ∧
    (symbolsWire ["NASDAQ:AAPL", "BTCUSD"])[1]? =
      some (JValue.arr [JValue.str "BTCUSD", JValue.str "BTCUSD|1D"]) := by
  refine ⟨(symbolOverview_symbols_mapping ["NASDAQ:AAPL", "BTCUSD"] 0).1, ?_, ?_⟩
  · rw [(symbolOverview_symbols_mapping ["NASDAQ:AAPL", "BTCUSD"] 0).2 (by decide)]
    rfl
  · rw [(symbolOverview_symbols_mapping ["NASDAQ:AAPL", "BTCUSD"] 1).2 (by decide)]
    rfl

/-- C6: the country "European Union" maps to the wire code "eu";
deduplication of the countries array has set semantics (no duplicates in
the result, membership preserved) and produces the deterministic
first-occurrence order, so the comma-joined countryFilter string contains
one code per distinct country, as the concrete duplicate example shows. -/
theorem economicCalendar_country_dedup :
    List.lookup Country.europeanUnion CountryMap = some "eu" ∧
    (∀ cs : List Country, (jsSetDedup cs).Nodup) ∧
    (∀ (cs : List Country) (c : Country), c ∈ jsSetDedup cs ↔ c ∈ cs) ∧
    (∀ cs : List Country, jsSetDedup cs = firstOccurrences cs) ∧
    (∀ cs : List Country, countryFilter cs =
      String.intercalate "," ((firstOccurrences cs).map countryWireCode)) ∧
    countryFilter
      [Country.unitedStates, Country.europeanUnion, Country.unitedStates] = "us,eu" := by
  refine ⟨rfl, fun cs => nodup_jsSetDedup cs, fun cs c => mem_jsSetDedup c cs,
    fun cs => jsSetDedup_eq_firstOccurrences cs, fun cs => ?_, rfl⟩
  rw [countryFilter, jsSetDedup_eq_firstOccurrences]

/-- C7: the TopStories wire payload contains a "symbol" key exactly when
the feed mode is "symbol": for feed modes "all_symbols" and "market" the
key is omitted even if a symbol value is supplied, and with a supplied
symbol (the invariant the TS union type enforces for feed mode "symbol")
the key's presence is equivalent to the feed mode being "symbol". -/
theorem topStories_symbol_key_iff_symbol_mode (q : TopStoriesMerged) :
    (q.feedMode ≠ TopStoriesFeedMode.symbol →
      "symbol" ∉ objKeys (topStoriesPayload q)) ∧
    (q.symbol.isSome = true →
      ("symbol" ∈ objKeys (topStoriesPayload q) ↔
        q.feedMode = TopStoriesFeedMode.symbol)) := by
  constructor
  · intro hne
    rw [topStoriesPayload, if_neg hne]
    intro hmem
    rcases (mem_objKeys_jsonObject _ _).mp hmem with ⟨v, hv⟩
    simp +decide at hv
  · intro hs
    constructor
    · intro hmem
      by_contra hne
      rw [topStoriesPayload, if_neg hne] at hmem
      rcases (mem_objKeys_jsonObject _ _).mp hmem with ⟨v, hv⟩
      simp +decide at hv
    · intro heq
      rw [topStoriesPayload, if_pos heq]
      rcases hv : q.symbol with _ | s
      · rw [hv] at hs
        simp at hs
      · refine (mem_objKeys_jsonObject _ _).mpr ⟨JValue.str s, ?_⟩
        simp [hv]

/-- Concrete TopStories configuration: feed mode "all_symbols" with a
symbol value nevertheless supplied. -/
def topStoriesCfgW : TopStoriesMerged :=
  mergeTopStoriesProps
    { feedMode := some TopStoriesFeedMode.all_symbols, symbol := some "NASDAQ:AAPL" }

theorem topStories_symbol_key_iff_symbol_mode_witness :
    "symbol" ∉ objKeys (topStoriesPayload topStoriesCfgW) ∧
    ("symbol" ∈ objKeys (topStoriesPayload topStoriesCfgW) ↔
      topStoriesCfgW.feedMode = TopStoriesFeedMode.symbol) :=
  ⟨(topStories_symbol_key_iff_symbol_mode topStoriesCfgW).1 (by decide),
   (topStories_symbol_key_iff_symbol_mode topStoriesCfgW).2 (by decide)⟩

/-- C8: every mapping table is total over its enum's value set: for every
declared value of ScaleMode, ChartType, ValueTrackingMode, LineType,
TimeFormat, Country and AdvancedChartIndicator, the association-list
lookup yields a defined (non-undefined) wire value. -/
theorem mapping_tables_total :
    (∀ x : ScaleMode, (List.lookup x ScaleModeMap).isSome = true) ∧
    (∀ x : ChartType, (List.lookup x ChartTypeMap).isSome = true) ∧
    (∀ x : ValueTrackingMode, (List.lookup x ValueTrackingModeMap).isSome = true) ∧
    (∀ x : LineType, (List.lookup x LineTypeMap).isSome = true) ∧
    (∀ x : TimeFormat, (List.lookup x TimeFormatMap).isSome = true) ∧
    (∀ x : Country, (List.lookup x CountryMap).isSome = true) ∧
    (∀ x : AdvancedChartIndicator, (List.lookup x IndicatorMap).isSome = true) := by
  refine ⟨?_, ?_, ?_, ?_, ?_, ?_, ?_⟩ <;> intro x <;> cases x <;> rfl

/-- SymbolOverview configuration with chartType "line" and all six
candlestick-only color props explicitly supplied. -/
def symbolOverviewCexProps : SymbolOverviewProps :=
  { symbols := ["NASDAQ:AAPL"]
    chartType := some ChartType.line
    upColor := some "#00C853"
    downColor := some "#FF1744"
    borderUpColor := some "#00A843"
    borderDownColor := some "#D50000"
    wickUpColor := some "#00E676"
    wickDownColor := some "#FF5252" }

/-- The merged counterexample configuration. -/
def symbolOverviewCex : SymbolOverviewMerged :=
  mergeSymbolOverviewProps symbolOverviewCexProps

/-- C2 counterexample: with chartType "line" and explicitly supplied
candlestick-only colors, the serialized SymbolOverview wire payload DOES
contain every one of the candlestick-only color keys (the mapper passes
them through unconditionally; only `undefined` props are dropped), so the
claimed discriminant-driven omission does not hold. -/
theorem symbolOverview_line_keeps_candlestick_colors :
    symbolOverviewCex.chartType = ChartType.line ∧
    lookupKey (symbolOverviewPayload symbolOverviewCex) "chartType" =
      some (JValue.str "line") ∧
    "upColor" ∈ objKeys (symbolOverviewPayload symbolOverviewCex) ∧
    "downColor" ∈ objKeys (symbolOverviewPayload symbolOverviewCex) ∧
    "borderUpColor" ∈ objKeys (symbolOverviewPayload symbolOverviewCex) ∧
    "borderDownColor" ∈ objKeys (symbolOverviewPayload symbolOverviewCex) ∧
    "wickUpColor" ∈ objKeys (symbolOverviewPayload symbolOverviewCex) ∧
    "wickDownColor" ∈ objKeys (symbolOverviewPayload symbolOverviewCex) := by
  refine ⟨rfl, rfl, ?_, ?_, ?_, ?_, ?_, ?_⟩
  · exact (mem_objKeys_jsonObject _ _).mpr ⟨JValue.str "#00C853", by
      simp [soEntriesA, soEntriesB, soEntriesC, soEntriesD,
        symbolOverviewCex, symbolOverviewCexProps, mergeSymbolOverviewProps]⟩
  · exact (mem_objKeys_jsonObject _ _).mpr ⟨JValue.str "#FF1744", by
      simp [soEntriesA, soEntriesB, soEntriesC, soEntriesD,
        symbolOverviewCex, symbolOverviewCexProps, mergeSymbolOverviewProps]⟩
  · exact (mem_objKeys_jsonObject _ _).mpr ⟨JValue.str "#00A843", by
      simp [soEntriesA, soEntriesB, soEntriesC, soEntriesD,
        symbolOverviewCex, symbolOverviewCexProps, mergeSymbolOverviewProps]⟩
  · exact (mem_objKeys_jsonObject _ _).mpr ⟨JValue.str "#D50000", by
      simp [soEntriesA, soEntriesB, soEntriesC, soEntriesD,
        symbolOverviewCex, symbolOverviewCexProps, mergeSymbolOverviewProps]⟩
  · exact (mem_objKeys_jsonObject _ _).mpr ⟨JValue.str "#00E676", by
      simp [soEntriesA, soEntriesB, soEntriesC, soEntriesD,
        symbolOverviewCex, symbolOverviewCexProps, mergeSymbolOverviewProps]⟩
  · exact (mem_objKeys_jsonObject _ _).mpr ⟨JValue.str "#FF5252", by
      simp [soEntriesA, soEntriesB, soEntriesC, soEntriesD,
        symbolOverviewCex, symbolOverviewCexProps, mergeSymbolOverviewProps]⟩

/-- C2 (amended): in the SymbolOverview wire payload, each chart-style
color field (upColor, downColor, borderUpColor, borderDownColor,
wickUpColor, wickDownColor) is present exactly when the corresponding
prop was supplied; presence is independent of chartType, so omission
happens only for undefined props, never by discriminant. -/
theorem symbolOverview_color_field_present_iff_supplied (p : SymbolOverviewProps) :
    ("upColor" ∈ objKeys (symbolOverviewPayload (mergeSymbolOverviewProps p)) ↔
      p.upColor.isSome = true) ∧
    ("downColor" ∈ objKeys (symbolOverviewPayload (mergeSymbolOverviewProps p)) ↔
      p.downColor.isSome = true) ∧
    ("borderUpColor" ∈ objKeys (symbolOverviewPayload (mergeSymbolOverviewProps p)) ↔
      p.borderUpColor.isSome = true) ∧
    ("borderDownColor" ∈ objKeys (symbolOverviewPayload (mergeSymbolOverviewProps p)) ↔
      p.borderDownColor.isSome = true) ∧
    ("wickUpColor" ∈ objKeys (symbolOverviewPayload (mergeSymbolOverviewProps p)) ↔
      p.wickUpColor.isSome = true) ∧
    ("wickDownColor" ∈ objKeys (symbolOverviewPayload (mergeSymbolOverviewProps p)) ↔
      p.wickDownColor.isSome = true) := by
  refine ⟨?_, ?_, ?_, ?_, ?_, ?_⟩
  · rw [symbolOverviewPayload, mem_objKeys_jsonObject]
    cases hv : p.upColor with
    | none =>
      simp +decide [soEntriesA, soEntriesB, soEntriesC, soEntriesD,
        mergeSymbolOverviewProps, hv]
    | some c =>
      simp +decide [soEntriesA, soEntriesB, soEntriesC, soEntriesD,
        mergeSymbolOverviewProps, hv]
  · rw [symbolOverviewPayload, mem_objKeys_jsonObject]
    cases hv : p.downColor with
    | none =>
      simp +decide [soEntriesA, soEntriesB, soEntriesC, soEntriesD,
        mergeSymbolOverviewProps, hv]
    | some c =>
      simp +decide [soEntriesA, soEntriesB, soEntriesC, soEntriesD,
        mergeSymbolOverviewProps, hv]
  · rw [symbolOverviewPayload, mem_objKeys_jsonObject]
    cases hv : p.borderUpColor with
    | none =>
      simp +decide [soEntriesA, soEntriesB, soEntriesC, soEntriesD,
        mergeSymbolOverviewProps, hv]
    | some c =>
      simp +decide [soEntriesA, soEntriesB, soEntriesC, soEntriesD,
        mergeSymbolOverviewProps, hv]
  · rw [symbolOverviewPayload, mem_objKeys_jsonObject]
    cases hv : p.borderDownColor with
    | none =>
      simp +decide [soEntriesA, soEntriesB, soEntriesC, soEntriesD,
        mergeSymbolOverviewProps, hv]
    | some c =>
      simp +decide [soEntriesA, soEntriesB, soEntriesC, soEntriesD,
        mergeSymbolOverviewProps, hv]
  · rw [symbolOverviewPayload, mem_objKeys_jsonObject]
    cases hv : p.wickUpColor with
    | none =>
      simp +decide [soEntriesA, soEntriesB, soEntriesC, soEntriesD,
        mergeSymbolOverviewProps, hv]
    | some c =>
      simp +decide [soEntriesA, soEntriesB, soEntriesC, soEntriesD,
        mergeSymbolOverviewProps, hv]
  · rw [symbolOverviewPayload, mem_objKeys_jsonObject]
    cases hv : p.wickDownColor with
    | none =>
      simp +decide [soEntriesA, soEntriesB, soEntriesC, soEntriesD,
        mergeSymbolOverviewProps, hv]
    | some c =>
      simp +decide [soEntriesA, soEntriesB, soEntriesC, soEntriesD,
        mergeSymbolOverviewProps, hv]
